import Mathlib

/-!
Verification of the TCRM GUI shell (`src/gui.pyw`).

The program is a single Tkinter/ttk script.  Its mutable state is four
Tk variables/widget values: two `StringVar` text entries (`entry1` on the
Data tab, `entry2` on the Calibration tab), a `StringVar` behind a
read-only combobox (`combo`), and a `Progressbar` value.  A matplotlib
figure is built once and holds the plotted curves.  The only registered
callback is `GUI.onOkClicked`, bound to the Ok buttons on both the shared
bottom strip and the Calibration tab; it sets `entry1` to "Ok pressed.".

We embed that state shallowly: widget values become fields of `UIState`,
the figure becomes a list of plotted curves, UI events become an `Event`
type with a `step` function, and reachability is folding `step` over an
event list from the constructed start state.
-/

open Real

/-- The mutable widget state of the application: the two entry `StringVar`s
(`gui.pyw` lines 128 and 140), the combobox `StringVar` (line 133) and the
progress bar value (lines 112-120). -/
structure UIState where
  entry1 : String
  entry2 : String
  combo : String
  progress : Nat
deriving DecidableEq, Repr

/-- The value a fresh `tk.StringVar()` holds: the empty string. -/
def stringVarInit : String := ""

/-- `combo[ values] = ('one', 'two', 'three')`, line 135. -/
def comboValues : List String := ["one", "two", "three"]

/-- `GUI.onOkClicked` (lines 148-149): `self.entry1.set('Ok pressed.')`. -/
def onOkClicked (s : UIState) : UIState :=
  { s with entry1 := "Ok pressed." }

/-- The command bound to the shared bottom Ok button, line 117:
`command=self.onOkClicked`. -/
def dataOkCommand : UIState → UIState := onOkClicked

/-- The command bound to the Calibration tab's Ok button, line 144:
`command=self.onOkClicked`. -/
def calibrationOkCommand : UIState → UIState := onOkClicked

/-- `GUI._initDataProcessingControls` (lines 127-137): creates `entry1`
(fresh `StringVar`), then the combobox variable `combo` (fresh `StringVar`),
then `combo.current(0)` selects element 0 of the configured values. -/
def initDataProcessingControls (s : UIState) : UIState :=
  let s1 := { s with entry1 := stringVarInit }
  let s2 := { s1 with combo := stringVarInit }
  { s2 with combo := comboValues.getD 0 s2.combo }

/-- `GUI._initCalibrationControls` (lines 139-145): creates `entry2` as a
fresh `StringVar` (the Ok button it also creates carries no state). -/
def initCalibrationControls (s : UIState) : UIState :=
  { s with entry2 := stringVarInit }

/-- `GUI._initModelConfigControls` (lines 100-125): builds the Data tab,
then the Calibration tab, then the progress bar (a fresh determinate
`Progressbar` starts at 0), then sets `progress[ value] = 50`. -/
def initModelConfigControls (s : UIState) : UIState :=
  let s1 := initDataProcessingControls s
  let s2 := initCalibrationControls s1
  let s3 := { s2 with progress := 0 }
  { s3 with progress := 50 }

/-- The widget state right after `GUI.__init__` has run: every field is
written during construction, so the pre-construction record is arbitrary. -/
def guiInitUI : UIState := initModelConfigControls ⟨"", "", "", 0⟩

/-- A plotted line: the sample points handed to `self.a.plot(t, s)` in
`LineFigure.render`.  Abscissae are the exact rationals of the arange
grid; ordinates are real-valued sine samples. -/
structure Curve where
  points : List (ℚ × ℝ)

/-- `np.arange(start, stop, step)` over exact rationals: the number of
samples is the ceiling of `(stop - start) / step`, and sample `i` is
`start + i * step`. -/
def arangeQ (start stop step : ℚ) : List ℚ :=
  (List.range (⌈(stop - start) / step⌉.toNat)).map (fun i : ℕ => start + (i : ℚ) * step)

/-- `t = np.arange(0.0, 3.0, 0.01)`, line 63. -/
def tArr : List ℚ := arangeQ 0 3 (1 / 100)

/-- The curve of `LineFigure.render` (lines 62-65):
`s = np.sin(2 * np.pi * t)` plotted against `t`. -/
noncomputable def sineCurve : Curve :=
  ⟨tArr.map (fun t => (t, Real.sin (2 * Real.pi * t)))⟩

/-- The figure state: the lines plotted on the single axes `self.a`. -/
structure FigureState where
  curves : List Curve

/-- `LineFigure.render` (lines 62-65): one `self.a.plot(t, s)` call, which
appends one line to the axes. -/
noncomputable def render (fig : FigureState) : FigureState :=
  { fig with curves := fig.curves ++ [sineCurve] }

/-- `LineFigure.__init__` (lines 42-60): a fresh subplot has no lines; the
constructor ends with the single `self.render()` call. -/
noncomputable def lineFigureInit : FigureState := render ⟨[]⟩

/-- The whole application state: widget values plus the embedded figure. -/
structure AppState where
  ui : UIState
  fig : FigureState

/-- State after the module top level has run (`GUI.__init__` builds the
widget tree via `_initControls`, which also constructs the `LineFigure`),
before any user event. -/
noncomputable def guiStart : AppState := ⟨guiInitUI, lineFigureInit⟩

/-- The UI events the running application can dispatch: the two Ok buttons
(both bound to `onOkClicked`), keystrokes into either entry, and a
selection in the read-only combobox (restricted to the three listed
values, hence an index `Fin 3`). -/
inductive Event where
  | okClicked
  | calibrationOkClicked
  | typeEntry1 (text : String)
  | typeEntry2 (text : String)
  | selectCombo (i : Fin 3)

/-- Effect of one event on the widget state. -/
def stepUI : Event → UIState → UIState
  | Event.okClicked, s => dataOkCommand s
  | Event.calibrationOkClicked, s => calibrationOkCommand s
  | Event.typeEntry1 t, s => { s with entry1 := t }
  | Event.typeEntry2 t, s => { s with entry2 := t }
  | Event.selectCombo i, s => { s with combo := comboValues.getD i.val "" }

/-- Effect of one event on the application: no callback touches the
figure. -/
def step (e : Event) (a : AppState) : AppState :=
  { a with ui := stepUI e a.ui }

/-- States reachable from launch by some sequence of UI events. -/
def Reachable (a : AppState) : Prop :=
  ∃ es : List Event, a = es.foldl (fun t e => step e t) guiStart

/-- C1: invoking `onOkClicked` sets `entry1` to exactly "Ok pressed."
whatever its prior value, and the handler is idempotent. -/
theorem onOkClicked_sets_entry1_and_idempotent (s : UIState) :
    (onOkClicked s).entry1 = "Ok pressed." ∧
      onOkClicked (onOkClicked s) = onOkClicked s :=
  ⟨rfl, rfl⟩

/-- C1 witness: the theorem at the launch widget state. -/
theorem onOkClicked_sets_entry1_and_idempotent_witness :
    (onOkClicked guiInitUI).entry1 = "Ok pressed." ∧
      onOkClicked (onOkClicked guiInitUI) = onOkClicked guiInitUI :=
  onOkClicked_sets_entry1_and_idempotent guiInitUI

/-- C2: `onOkClicked` changes nothing but `entry1`: `entry2`, `combo` and
`progress` are identical before and after it runs, from any state. -/
theorem onOkClicked_frame (s : UIState) :
    (onOkClicked s).entry2 = s.entry2 ∧
      (onOkClicked s).combo = s.combo ∧
      (onOkClicked s).progress = s.progress :=
  ⟨rfl, rfl, rfl⟩

/-- C3: immediately after launch the combobox value is "one", the element
at index 0 of the three configured options. -/
theorem combo_initial_value :
    guiStart.ui.combo = "one" ∧
      comboValues = ["one", "two", "three"] ∧
      guiStart.ui.combo = comboValues.getD 0 "" :=
  ⟨rfl, rfl, rfl⟩

/-- No event changes the progress value: `onOkClicked` only writes
`entry1`, and no other callback is registered. -/
theorem stepUI_progress (e : Event) (s : UIState) :
    (stepUI e s).progress = s.progress := by
  cases e <;> rfl

/-- Folding any event sequence leaves the progress value unchanged. -/
theorem foldl_step_progress (es : List Event) (a : AppState) :
    (es.foldl (fun t e => step e t) a).ui.progress = a.ui.progress := by
  induction es generalizing a with
  | nil => rfl
  | cons e es ih => exact (ih (step e a)).trans (stepUI_progress e a.ui)

/-- C4: at launch the progress value is 50, and it is still 50 in every
state reachable by any sequence of UI events. -/
theorem progress_fixed_fifty :
    guiStart.ui.progress = 50 ∧ ∀ a : AppState, Reachable a → a.ui.progress = 50 := by
  refine ⟨rfl, ?_⟩
  rintro a ⟨es, rfl⟩
  exact (foldl_step_progress es guiStart).trans rfl

/-- C4 witness: the launch state is reachable (empty event sequence) and
the theorem yields its progress value. -/
theorem progress_fixed_fifty_witness :
    Reachable guiStart ∧ guiStart.ui.progress = 50 :=
  ⟨⟨[], rfl⟩, progress_fixed_fifty.2 guiStart ⟨[], rfl⟩⟩

/-- One event keeps the combobox value inside the configured list: the
only event that writes it is a selection, restricted to the three listed
values. -/
theorem stepUI_combo_mem (e : Event) (s : UIState) (h : s.combo ∈ comboValues) :
    (stepUI e s).combo ∈ comboValues := by
  cases e
  case selectCombo i =>
    show comboValues.getD i.val "" ∈ comboValues
    fin_cases i <;> decide
  all_goals exact h

/-- Folding any event sequence preserves combobox membership. -/
theorem foldl_step_combo_mem (es : List Event) (a : AppState)
    (h : a.ui.combo ∈ comboValues) :
    (es.foldl (fun t e => step e t) a).ui.combo ∈ comboValues := by
  induction es generalizing a with
  | nil => exact h
  | cons e es ih => exact ih (step e a) (stepUI_combo_mem e a.ui h)

/-- C5: in the initial state and after every transition, the combobox
value is one of the three enumerated values. -/
theorem combo_always_enumerated (a : AppState) (h : Reachable a) :
    a.ui.combo ∈ comboValues := by
  obtain ⟨es, rfl⟩ := h
  exact foldl_step_combo_mem es guiStart (by decide)

/-- C5 witness: the launch state is reachable and its combobox value is
in the enumerated list. -/
theorem combo_always_enumerated_witness :
    Reachable guiStart ∧ guiStart.ui.combo ∈ comboValues :=
  ⟨⟨[], rfl⟩, combo_always_enumerated guiStart ⟨[], rfl⟩⟩

/-- The arange grid of the plot is exactly the 300 rationals `i / 100`,
`i = 0 .. 299`. -/
theorem tArr_eq : tArr = (List.range 300).map (fun i : ℕ => (i : ℚ) / 100) := by
  have hc : (⌈((3 : ℚ) - 0) / (1 / 100)⌉).toNat = 300 := by norm_num; rfl
  simp only [tArr, arangeQ, hc]
  refine List.map_congr_left ?_
  intro i _
  ring

/-- C6: the figure holds exactly one curve, the sine wave sampled at step
0.01 over [0, 3) (300 points, point `i` at abscissa `i / 100` with
ordinate `sin (2 pi t)`), it is produced by the single render call during
construction, and no event ever changes the figure. -/
theorem chart_single_static_sine :
    guiStart.fig.curves = [sineCurve] ∧
      tArr.length = 300 ∧
      tArr = (List.range 300).map (fun i : ℕ => (i : ℚ) / 100) ∧
      sineCurve.points = tArr.map (fun t : ℚ => ((t : ℚ), Real.sin (2 * Real.pi * (t : ℝ)))) ∧
      ∀ (e : Event) (a : AppState), (step e a).fig = a.fig := by
  refine ⟨rfl, ?_, tArr_eq, rfl, fun e a => rfl⟩
  rw [tArr_eq]
  simp only [List.length_map, List.length_range]

/-- C6 witness: the figure-preservation part of the theorem at a concrete
event and the launch state. -/
theorem chart_single_static_sine_witness :
    (step Event.okClicked guiStart).fig = guiStart.fig :=
  chart_single_static_sine.2.2.2.2 Event.okClicked guiStart

/-- The module top level (`gui.pyw` lines 11 and 151-157) with its two
fallible platform operations — toolkit initialization `tk.Tk()` (line 11)
and icon decoding `tk.PhotoImage(data=ICON)` (line 152) — made explicit
as `Except` results.  The script contains no try/except anywhere, so the
embedding is plain sequencing: the first failure propagates to the top
level and construction is never reached. -/
def startup (tkInit : Except String Unit) (iconDecode : Except String Unit) :
    Except String UIState :=
  tkInit.bind (fun _ => iconDecode.bind (fun _ => Except.ok guiInitUI))

/-- The body of `onOkClicked` (line 149) with its single Tk variable
write made fallible: the handler is one call with no recovery branch. -/
def onOkClickedFallible (setEntry1 : String → Except String Unit) :
    Except String Unit :=
  setEntry1 "Ok pressed."

/-- C7: no operation catches an error: a toolkit-initialization failure or
an icon-decode failure at startup propagates unchanged (startup never
recovers to a constructed state), startup succeeds only when both
operations do, and a failure inside the registered handler propagates
unchanged as well. -/
theorem startup_propagates_failures :
    (∀ (e : String) (icon : Except String Unit),
        startup (Except.error e) icon = Except.error e) ∧
      (∀ e : String, startup (Except.ok ()) (Except.error e) = Except.error e) ∧
      startup (Except.ok ()) (Except.ok ()) = Except.ok guiInitUI ∧
      ∀ e : String,
        onOkClickedFallible (fun _ => Except.error e) = Except.error e :=
  ⟨fun _ _ => rfl, fun _ => rfl, rfl, fun _ => rfl⟩

/-- C7 witness: the theorem at concrete startup outcomes. -/
theorem startup_propagates_failures_witness :
    startup (Except.error "tk init failed") (Except.ok ()) =
        Except.error "tk init failed" ∧
      startup (Except.ok ()) (Except.error "bad icon") =
        Except.error "bad icon" :=
  ⟨startup_propagates_failures.1 "tk init failed" (Except.ok ()),
    startup_propagates_failures.2.1 "bad icon"⟩

/-- C8: the Calibration tab's Ok button is bound to the very same handler
as the shared Ok button; invoking it writes "Ok pressed." into `entry1`
and leaves `entry2` unchanged, from any state. -/
theorem calibrationOk_same_handler :
    calibrationOkCommand = dataOkCommand ∧
      (∀ s : UIState,
        (calibrationOkCommand s).entry1 = "Ok pressed." ∧
          (calibrationOkCommand s).entry2 = s.entry2) ∧
      ∀ a : AppState,
        (step Event.calibrationOkClicked a).ui.entry1 = "Ok pressed." ∧
          (step Event.calibrationOkClicked a).ui.entry2 = a.ui.entry2 :=
  ⟨rfl, fun _ => ⟨rfl, rfl⟩, fun _ => ⟨rfl, rfl⟩⟩

/-- C8 witness: the theorem at the launch state. -/
theorem calibrationOk_same_handler_witness :
    (step Event.calibrationOkClicked guiStart).ui.entry1 = "Ok pressed." ∧
      (step Event.calibrationOkClicked guiStart).ui.entry2 = guiStart.ui.entry2 :=
  calibrationOk_same_handler.2.2 guiStart

/-- One channel of the background-color computation (line 45): Python 2
integer (floor) division `c / 255` applied to a 16-bit channel returned
by `ROOT.winfo_rgb`. -/
def channelScale (c : Nat) : Nat := c / 255

/-- The `%02x` conversion: lowercase hexadecimal digits of `n`,
left-padded with zeros to a minimum width of 2 (wider if `n` needs more
digits). -/
def fmt02x (n : Nat) : String :=
  let ds := Nat.toDigits 16 n
  String.mk (List.replicate (2 - ds.length) '0' ++ ds)

/-- The produced color string (lines 45-46):
the format `'#%02x%02x%02x'` applied to the three scaled channels. -/
def bgColor (r g b : Nat) : String :=
  "#" ++ fmt02x (channelScale r) ++ fmt02x (channelScale g) ++ fmt02x (channelScale b)

/-- C9 counterexample: at the admissible 16-bit channel value 65535 the
scaled value is 257, which exceeds 255, and the produced color string has
10 characters, not 7 (`"#"` plus six hex digits). -/
theorem channelScale_overflow_counterexample :
    channelScale 65535 = 257 ∧
      ¬ channelScale 65535 ≤ 255 ∧
      (bgColor 65535 65535 65535).length ≠ 7 := by
  decide

set_option maxRecDepth 4000 in
/-- Every value up to 255 prints as exactly two characters under
`%02x`. -/
theorem fmt02x_length_two : ∀ n : Nat, n < 256 → (fmt02x n).length = 2 := by
  decide

/-- C9 amended: the computation maps channel `c` to `c / 255` by floor
division; the result fits two hex digits exactly for `c ≤ 65279`, in
which case the color string is `"#"` followed by six hex digits, while
channels in `[65280, 65535]` scale to 256 or 257 and overflow the field. -/
theorem channelScale_bounds :
    (∀ c : Nat, c ≤ 65279 → channelScale c ≤ 255) ∧
      (∀ c : Nat, 65280 ≤ c → c ≤ 65535 →
        256 ≤ channelScale c ∧ channelScale c ≤ 257) ∧
      ∀ r g b : Nat, r ≤ 65279 → g ≤ 65279 → b ≤ 65279 →
        (bgColor r g b).length = 7 := by
  refine ⟨fun c hc => ?_, fun c h1 h2 => ⟨?_, ?_⟩, fun r g b hr hg hb => ?_⟩
  · unfold channelScale; omega
  · unfold channelScale; omega
  · unfold channelScale; omega
  · have h1 : (fmt02x (channelScale r)).length = 2 :=
      fmt02x_length_two _ (by unfold channelScale; omega)
    have h2 : (fmt02x (channelScale g)).length = 2 :=
      fmt02x_length_two _ (by unfold channelScale; omega)
    have h3 : (fmt02x (channelScale b)).length = 2 :=
      fmt02x_length_two _ (by unfold channelScale; omega)
    simp only [bgColor, String.length_append, h1, h2, h3]
    decide

/-- C9 witness: the amended theorem at concrete channels — the typical
light-gray channel 61680 (0xF0F0) stays in range and yields a 7-character
color, while 65535 scales past 255. -/
theorem channelScale_bounds_witness :
    (61680 : Nat) ≤ 65279 ∧
      channelScale 61680 ≤ 255 ∧
      (256 ≤ channelScale 65535 ∧ channelScale 65535 ≤ 257) ∧
      (bgColor 61680 61680 61680).length = 7 :=
  ⟨by decide,
    channelScale_bounds.1 61680 (by decide),
    channelScale_bounds.2.1 65535 (by decide) (by decide),
    channelScale_bounds.2.2 61680 61680 61680 (by decide) (by decide) (by decide)⟩

/-- C10: at launch both entry values are the empty string, and no event
other than a keystroke into `entry2` itself ever changes `entry2` — in
particular neither Ok button (the only program-registered callback)
writes it. -/
theorem entries_empty_and_entry2_user_only :
    guiStart.ui.entry1 = "" ∧
      guiStart.ui.entry2 = "" ∧
      (∀ a : AppState, (step Event.okClicked a).ui.entry2 = a.ui.entry2) ∧
      (∀ a : AppState,
        (step Event.calibrationOkClicked a).ui.entry2 = a.ui.entry2) ∧
      (∀ (a : AppState) (t : String),
        (step (Event.typeEntry1 t) a).ui.entry2 = a.ui.entry2) ∧
      ∀ (a : AppState) (i : Fin 3),
        (step (Event.selectCombo i) a).ui.entry2 = a.ui.entry2 :=
  ⟨rfl, rfl, fun _ => rfl, fun _ => rfl, fun _ _ => rfl, fun _ _ => rfl⟩

/-- C10 witness: the theorem at the launch state and a concrete event. -/
theorem entries_empty_and_entry2_user_only_witness :
    (step Event.okClicked guiStart).ui.entry2 = guiStart.ui.entry2 :=
  entries_empty_and_entry2_user_only.2.2.1 guiStart
